import Mathlib

/-!
Verification development for the alpaca-webhook-bot repository.

The repository is a set of Flask/FastAPI webhook services that translate
trading alerts into broker orders. This file gives a shallow embedding of
the decision logic of the four relevant source files:

  - app.py           (paper-trading equities bot, long/short strategy bias)
  - app_live.py      (live equities bot with market-hours checks)
  - breakout_bot.py  (breakout bot with daily trade cap and sign-aware closes)
  - app_options.py   (options bot with OCO bracket tracking)

Broker I/O (HTTP calls) is modelled by passing the broker-reported values
(position quantity, buying power, clock state, submission outcome) as
explicit inputs, and by returning the order request the code would POST as
an explicit value. Python float arithmetic is modelled with exact rationals;
Python int() / floor-division on the nonneg values that occur here agree
with the mathematical floor used below.
-/

namespace AlpacaBot

/-- Python round(x, 2): round to two decimal places. Modelled with
round-to-nearest on rationals (the tie-breaking convention is never
exercised at the values appearing in the theorems below). -/
def round2 (x : ℚ) : ℚ := (⌊x * 100 + 1 / 2⌋ : ℚ) / 100

/-- The JSON body POSTed to /v2/orders, as built by the Python dicts named
order_data throughout the repository. limit_price is present only for limit
orders; extended_hours defaults to false when the key is absent. -/
structure OrderData where
  symbol : String
  qty : Int
  side : String
  otype : String
  limit_price : Option ℚ
  time_in_force : String
  extended_hours : Bool
deriving DecidableEq

/-- Outcome of a close_position call, before the broker responds:
either no order at all (flat position, 200 message), a DELETE
/v2/positions/symbol liquidation (market-hours branch), or an explicit
limit-order POST (extended-hours branch). -/
inductive CloseAction where
  | noPosition (symbol : String)
  | deletePosition (symbol : String)
  | submitOrder (o : OrderData)
deriving DecidableEq

/-- Quantity of the order POSTed by a CloseAction, when there is one. -/
def CloseAction.orderQty : CloseAction → Option Int
  | .submitOrder o => some o.qty
  | _ => none

/-- Side of the order POSTed by a CloseAction, when there is one. -/
def CloseAction.orderSide : CloseAction → Option String
  | .submitOrder o => some o.side
  | _ => none

/-- app.py lines 55-106, close_position(symbol, alert_price_str, market_is_open).
qty_to_close is the raw broker-reported quantity (no abs), and the
extended-hours order side is hardcoded to "sell" (source comment: Always
sell to close a long position). time_in_force is "gtc". -/
def close_position_app (symbol : String) (alert_price : ℚ) (market_is_open : Bool)
    (qty_to_close : Int) : CloseAction :=
  if qty_to_close = 0 then .noPosition symbol
  else if market_is_open then .deletePosition symbol
  else
    .submitOrder ⟨symbol, qty_to_close, "sell", "limit", some (round2 alert_price), "gtc", true⟩

/-- app_live.py lines 168-225, close_position(symbol, alert_price_str,
market_is_open, strategy_type). Same shape as app.py but the side is taken
from the configured strategy direction and time_in_force is "day". -/
def close_position_live (symbol : String) (alert_price : ℚ) (market_is_open : Bool)
    (strategy_type : String) (qty_to_close : Int) : CloseAction :=
  if qty_to_close = 0 then .noPosition symbol
  else if market_is_open then .deletePosition symbol
  else
    let exit_side := if strategy_type = "long" then "sell" else "buy"
    .submitOrder ⟨symbol, qty_to_close, exit_side, "limit", some (round2 alert_price), "day", true⟩

/-- breakout_bot.py lines 227-282, close_position. Sign-aware: long
positions are sold, short positions are bought back, and the order quantity
is abs(current_qty). -/
def close_position_breakout (symbol : String) (alert_price : ℚ) (market_is_open : Bool)
    (current_qty : Int) : CloseAction :=
  if current_qty = 0 then .noPosition symbol
  else
    let is_long_position := current_qty > 0
    let qty_to_close := |current_qty|
    if market_is_open then .deletePosition symbol
    else
      let exit_side := if is_long_position then "sell" else "buy"
      .submitOrder ⟨symbol, qty_to_close, exit_side, "limit", some (round2 alert_price), "day", true⟩

/-- Result of the GET /v2/positions/symbol call as seen by the bot:
either the parsed qty field or an HTTP error status. -/
inductive PosLookup where
  | ok (qty : Int)
  | httpError (status : Nat)
deriving DecidableEq

/-- app.py lines 24-38 / app_live.py lines 36-50 / breakout_bot.py lines
88-103, get_position_qty(symbol): a 404 from the position lookup is
returned as quantity 0 (flat); any other HTTP error is re-raised (modelled
as Except.error carrying the status). -/
def get_position_qty : PosLookup → Except Nat Int
  | .ok q => .ok q
  | .httpError s => if s = 404 then .ok 0 else .error s

/-! ### Daily trade cap (breakout_bot.py lines 39-84)

The JSON trades log maps an ISO date string to a set of symbols. Dates are
modelled as integers (day numbers); the log is a list of (date, symbol)
pairs, with membership playing the role of the nested dict lookup. -/

/-- The daily_trades.json contents: entries (date, symbol) meaning the
symbol was marked traded on that date. -/
abbrev TradesLog := List (Int × String)

/-- breakout_bot.py lines 52-56, has_traded_today(symbol):
trades_log.get(today, {}).get(symbol, False). -/
def has_traded_today (log : TradesLog) (today : Int) (symbol : String) : Bool :=
  log.any fun e => e.1 == today && e.2 == symbol

/-- breakout_bot.py lines 58-67, mark_traded_today(symbol): sets
trades_log[today][symbol] = True. -/
def mark_traded_today (log : TradesLog) (today : Int) (symbol : String) : TradesLog :=
  (today, symbol) :: log

/-- breakout_bot.py lines 69-84, cleanup_old_trades: removes entries whose
date is more than 7 days before today. -/
def cleanup_old_trades (log : TradesLog) (today : Int) : TradesLog :=
  log.filter fun e => !(today - e.1 > 7)

theorem has_traded_cleanup (log : TradesLog) (today : Int) (s : String) :
    has_traded_today (cleanup_old_trades log today) today s = has_traded_today log today s := by
  induction log with
  | nil => rfl
  | cons e rest ih =>
    by_cases h7 : today - e.1 > 7
    · have h1 : e.1 ≠ today := by omega
      have hb : (e.1 == today) = false := by simp [h1]
      simp only [cleanup_old_trades, List.filter_cons, has_traded_today, List.any_cons] at *
      simp [h7, hb, ih]
    · simp only [cleanup_old_trades, List.filter_cons, has_traded_today, List.any_cons] at *
      simp [h7, ih]

/-! ### Market hours configuration (app_live.py lines 15-27, breakout_bot.py lines 19-28)

Both files ship the same constants: ENABLE_TRADING = True,
ENFORCE_MARKET_HOURS = True, AUTO_CLOSE_BEFORE_MINUTES = 5.
Times of day are modelled as minutes since midnight Eastern; Python
datetime.time comparison on whole minutes agrees with this encoding.
weekday follows Python: 0 = Monday, ..., 6 = Sunday. -/

def ENABLE_TRADING : Bool := true

def ENFORCE_MARKET_HOURS : Bool := true

def AUTO_CLOSE_BEFORE_MINUTES : Nat := 5

/-- app_live.py lines 72-103, is_within_trading_hours: weekdays from
4:00 AM (pre-market) through 4:00 PM ET, checked as two branches. -/
def is_within_trading_hours_live (weekday minutes : Nat) : Bool :=
  if !ENFORCE_MARKET_HOURS then true
  else if weekday > 4 then false
  else if 4 * 60 ≤ minutes ∧ minutes < 9 * 60 + 30 then true
  else if 9 * 60 + 30 ≤ minutes ∧ minutes < 16 * 60 then true
  else false

/-- breakout_bot.py lines 142-168, is_within_trading_hours: single interval
from pre_market_start to regular_end. -/
def is_within_trading_hours_breakout (weekday minutes : Nat) : Bool :=
  if !ENFORCE_MARKET_HOURS then true
  else if weekday > 4 then false
  else if 4 * 60 ≤ minutes ∧ minutes < 16 * 60 then true
  else false

/-- app_live.py lines 105-131 and breakout_bot.py lines 170-191 (identical
code), is_near_market_close: computes close_hour/close_minute from
AUTO_CLOSE_BEFORE_MINUTES and tests
close_buffer_time <= current_time < time(16, 0). -/
def is_near_market_close (weekday minutes : Nat) : Bool :=
  if !ENFORCE_MARKET_HOURS then false
  else if weekday > 4 then false
  else
    let close_hour : Nat := if AUTO_CLOSE_BEFORE_MINUTES ≥ 60 then 15 else 16
    let close_minute : Nat :=
      if AUTO_CLOSE_BEFORE_MINUTES < 60 then 60 - AUTO_CLOSE_BEFORE_MINUTES
      else 60 - (AUTO_CLOSE_BEFORE_MINUTES - 60)
    decide (close_hour * 60 + close_minute ≤ minutes ∧ minutes < 16 * 60)

theorem is_near_market_close_false (weekday minutes : Nat) :
    is_near_market_close weekday minutes = false := by
  unfold is_near_market_close ENFORCE_MARKET_HOURS AUTO_CLOSE_BEFORE_MINUTES
  by_cases hw : weekday > 4
  · simp [hw]
  · simp [hw]; omega

/-! ### app.py webhook (lines 111-198) -/

/-- Outcome of the app.py webhook handler. entryOrder o means the handler
POSTed /v2/orders with body o (the HTTP reply to the caller mirrors the
broker response and carries no further decision logic). -/
inductive AppResult where
  | invalidPayload
  | exitPath (c : CloseAction)
  | positionExists
  | invalidPrice
  | insufficientFunds
  | entryOrder (o : OrderData)
  | actionMismatch
deriving DecidableEq

/-- app.py lines 111-198, webhook(). Inputs that the code fetches over HTTP
are passed explicitly: market_is_open (is_market_open), posQty
(get_position_qty for the signalled symbol) and buying_power
(get_buying_power, the regt_buying_power field). -/
def appWebhook (strategy_type symbol action : String) (alert_price : ℚ)
    (market_is_open : Bool) (posQty : Int) (buying_power : ℚ) : AppResult :=
  if symbol = "" ∨ action = "" then .invalidPayload
  else
    let entry_action := if strategy_type = "long" then "buy" else "sell"
    let exit_action := if strategy_type = "long" then "sell" else "buy"
    if action = exit_action then
      .exitPath (close_position_app symbol alert_price market_is_open posQty)
    else if action = entry_action then
      if posQty > 0 then .positionExists
      else if alert_price ≤ 0 then .invalidPrice
      else
        let trade_allocation := buying_power * (1 / 10)
        let qty : Int := ⌊trade_allocation / alert_price⌋
        if qty < 1 then .insufficientFunds
        else if market_is_open then
          .entryOrder ⟨symbol, qty, entry_action, "market", none, "day", false⟩
        else
          let buffer := alert_price * (1 / 1000)
          let limit_price := round2 (alert_price + buffer)
          .entryOrder ⟨symbol, qty, entry_action, "limit", some limit_price, "day", true⟩
    else .actionMismatch

/-! ### app_live.py webhook (lines 230-344) -/

/-- Outcome of the app_live.py webhook handler. autoClose carries the list
of symbols whose positions are DELETEd by close_all_positions. -/
inductive LiveResult where
  | invalidPayload
  | tradingDisabled
  | autoClose (closed : List String)
  | blockedHours
  | exitPath (c : CloseAction)
  | positionExists
  | invalidPrice
  | insufficientFunds
  | entryOrder (o : OrderData)
  | actionMismatch
deriving DecidableEq

/-- app_live.py lines 143-166 / breakout_bot.py lines 203-225,
close_all_positions: DELETE /v2/positions/symbol for every open position. -/
def close_all_positions (positions : List String) : List String := positions

/-- app_live.py lines 230-344, webhook(). weekday/minutes feed the
market-hours helpers; positions is the broker list of all open positions
(get_all_positions). The extended-hours entry uses the alert price as the
limit price with no buffer (source lines 316-326). -/
def appLiveWebhook (strategy_type symbol action : String) (alert_price : ℚ)
    (weekday minutes : Nat) (market_is_open : Bool) (posQty : Int)
    (buying_power : ℚ) (positions : List String) : LiveResult :=
  if symbol = "" ∨ action = "" then .invalidPayload
  else if !ENABLE_TRADING then .tradingDisabled
  else if ENFORCE_MARKET_HOURS && is_near_market_close weekday minutes then
    .autoClose (close_all_positions positions)
  else if ENFORCE_MARKET_HOURS && !is_within_trading_hours_live weekday minutes then
    .blockedHours
  else
    let entry_action := if strategy_type = "long" then "buy" else "sell"
    let exit_action := if strategy_type = "long" then "sell" else "buy"
    if action = exit_action then
      .exitPath (close_position_live symbol alert_price market_is_open strategy_type posQty)
    else if action = entry_action then
      if posQty > 0 then .positionExists
      else if alert_price ≤ 0 then .invalidPrice
      else
        let trade_allocation := buying_power * (1 / 10)
        let qty : Int := ⌊trade_allocation / alert_price⌋
        if qty < 1 then .insufficientFunds
        else if market_is_open then
          .entryOrder ⟨symbol, qty, entry_action, "market", none, "day", false⟩
        else
          .entryOrder ⟨symbol, qty, entry_action, "limit", some (round2 alert_price), "day", true⟩
    else .actionMismatch

/-! ### breakout_bot.py webhook (lines 286-499) -/

/-- breakout_bot.py lines 105-129, get_buying_power: returns
min(equity * 0.10, buying_power). -/
def get_buying_power_breakout (equity account_buying_power : ℚ) : ℚ :=
  min (equity * (1 / 10)) account_buying_power

/-- Outcome of the breakout_bot.py webhook handler. entryPlaced means the
entry POST was accepted (and the symbol marked traded); entryFailed means
the POST raised an HTTPError (no marking). -/
inductive BreakoutResult where
  | invalidPayload
  | invalidAction
  | tradingDisabled
  | autoClose (closed : List String)
  | blockedHours
  | invalidPrice
  | exitPath (c : CloseAction)
  | dailyLimit
  | insufficientFunds
  | entryPlaced (o : OrderData)
  | entryFailed (o : OrderData)
  | alreadyLong
  | alreadyShort
deriving DecidableEq

/-- The broker and clock state read by breakout_bot.py webhook over HTTP,
plus the inbound alert fields. submit_accepted is the outcome of the
POST /v2/orders call (true: 2xx; false: raise_for_status raised). -/
structure BreakoutEnv where
  symbol : String
  action : String
  alert_price : ℚ
  weekday : Nat
  minutes : Nat
  market_is_open : Bool
  current_qty : Int
  equity : ℚ
  account_buying_power : ℚ
  positions : List String
  submit_accepted : Bool
  today : Int
deriving DecidableEq

/-- breakout_bot.py lines 286-499, webhook(). Returns the decision outcome
together with the daily trades log as left on disk. Mirrors the source
order of checks: payload validation, action validation, kill switch,
cleanup_old_trades, auto-close, trading-hours block, price validation, then
the buy/sell strategy logic with sign-aware exits, the daily cap, 10 percent
equity sizing and market/limit order construction. The source uppercases
the ticker and lowercases the action (lines 311-318); the model takes the
already-normalized strings, which is the only way those lines can feed the
rest of the handler. -/
def breakoutWebhook (env : BreakoutEnv) (log : TradesLog) : BreakoutResult × TradesLog :=
  let symbol := env.symbol
  let action := env.action
  if env.symbol = "" ∨ env.action = "" then (.invalidPayload, log)
  else if ¬(action = "buy" ∨ action = "sell") then (.invalidAction, log)
  else if !ENABLE_TRADING then (.tradingDisabled, log)
  else
    let log := cleanup_old_trades log env.today
    if ENFORCE_MARKET_HOURS && is_near_market_close env.weekday env.minutes then
      (.autoClose (close_all_positions env.positions), log)
    else if ENFORCE_MARKET_HOURS && !is_within_trading_hours_breakout env.weekday env.minutes then
      (.blockedHours, log)
    else if env.alert_price ≤ 0 then (.invalidPrice, log)
    else
      let is_long_position := env.current_qty > 0
      let is_short_position := env.current_qty < 0
      let has_position := env.current_qty ≠ 0
      if action = "buy" then
        if is_short_position then
          (.exitPath (close_position_breakout symbol env.alert_price env.market_is_open
            env.current_qty), log)
        else if ¬has_position then
          if has_traded_today log env.today symbol then (.dailyLimit, log)
          else
            let buying_power := get_buying_power_breakout env.equity env.account_buying_power
            let trade_allocation := buying_power
            let qty : Int := ⌊trade_allocation / env.alert_price⌋
            if qty < 1 then (.insufficientFunds, log)
            else
              let order : OrderData :=
                if env.market_is_open then
                  ⟨symbol, qty, "buy", "market", none, "day", false⟩
                else
                  ⟨symbol, qty, "buy", "limit", some (round2 env.alert_price), "day", true⟩
              if env.submit_accepted then
                (.entryPlaced order, mark_traded_today log env.today symbol)
              else (.entryFailed order, log)
        else (.alreadyLong, log)
      else
        if is_long_position then
          (.exitPath (close_position_breakout symbol env.alert_price env.market_is_open
            env.current_qty), log)
        else if ¬has_position then
          if has_traded_today log env.today symbol then (.dailyLimit, log)
          else
            let buying_power := get_buying_power_breakout env.equity env.account_buying_power
            let trade_allocation := buying_power
            let qty : Int := ⌊trade_allocation / env.alert_price⌋
            if qty < 1 then (.insufficientFunds, log)
            else
              let order : OrderData :=
                if env.market_is_open then
                  ⟨symbol, qty, "sell", "market", none, "day", false⟩
                else
                  ⟨symbol, qty, "sell", "limit", some (round2 env.alert_price), "day", true⟩
              if env.submit_accepted then
                (.entryPlaced order, mark_traded_today log env.today symbol)
              else (.entryFailed order, log)
        else (.alreadyShort, log)

/-! ### OCO bracket tracker (app_options.py lines 44-45 and 218-236)

OCO_BOOK maps a parent entry order id to its take-profit / stop-loss child
ids. on_trade_update consumes one trade-update event, cancelling the
sibling leg on a fill and dropping the record on terminal events. Cancel
requests issued to the broker are returned as a list of order ids (the
source wraps each cancel in try/except so an already-cancelled sibling is a
no-op). -/

/-- One OCO_BOOK value: the child order ids of an armed bracket. -/
structure OcoKids where
  tp_id : Option String
  sl_id : Option String
deriving DecidableEq

/-- OCO_BOOK: parent entry order id mapped to its bracket children, in
insertion order. -/
abbrev OcoBook := List (String × OcoKids)

/-- The terminal events of app_options.py line 232. -/
def terminalEvents : List String := ["canceled", "rejected", "expired", "done_for_day"]

/-- One iteration of the inner leg loop of on_trade_update for a single
bracket record: given which leg is being checked (isTp), returns whether
the record was popped and which sibling cancels were requested. -/
def legStep (kids : OcoKids) (event oid : String) (isTp : Bool) : Bool × List String :=
  if (if isTp then kids.tp_id else kids.sl_id) = some oid then
    if event = "fill" then
      let sib := if isTp then kids.sl_id else kids.tp_id
      (true, sib.toList)
    else if event ∈ terminalEvents then (true, [])
    else (false, [])
  else (false, [])

/-- Both leg checks (tp_id then sl_id) for one bracket record, as executed
by the for-leg loop. -/
def entryStep (kids : OcoKids) (event oid : String) : Bool × List String :=
  let tp := legStep kids event oid true
  let sl := legStep kids event oid false
  (tp.1 || sl.1, tp.2 ++ sl.2)

/-- app_options.py lines 218-236, on_trade_update(u): scans a snapshot of
OCO_BOOK; on a fill of a tracked leg cancels the sibling and pops the
record; on canceled/rejected/expired/done_for_day pops the record without
cancelling; all other ids and events leave the book unchanged. Returns the
new book and the cancel requests issued. -/
def on_trade_update (book : OcoBook) (event oid : String) : OcoBook × List String :=
  match book with
  | [] => ([], [])
  | (parent, kids) :: rest =>
    let step := entryStep kids event oid
    let tail := on_trade_update rest event oid
    (if step.1 then tail.1 else (parent, kids) :: tail.1, step.2 ++ tail.2)

/-! ### Claim theorems -/

/-- C9: for every exit signal on a symbol whose current position quantity is
zero, the result is a no-position-to-exit suppression (a non-error response
with a message) and no closing order is submitted to the broker. Holds in
all three close_position variants. -/
theorem C9_exit_on_flat_suppressed (symbol strategy_type : String) (p : ℚ) (mo : Bool) :
    close_position_app symbol p mo 0 = .noPosition symbol ∧
    close_position_breakout symbol p mo 0 = .noPosition symbol ∧
    close_position_live symbol p mo strategy_type 0 = .noPosition symbol := by
  refine ⟨?_, ?_, ?_⟩ <;>
    simp [close_position_app, close_position_breakout, close_position_live]

/-- C7: a 404 from the broker position lookup yields quantity 0 (flat); a
successful lookup returns the reported quantity; any other HTTP error
status is propagated as an error. -/
theorem C7_position_404_is_flat :
    get_position_qty (.httpError 404) = .ok 0 ∧
    (∀ q : Int, get_position_qty (.ok q) = .ok q) ∧
    (∀ s : Nat, s ≠ 404 → get_position_qty (.httpError s) = .error s) := by
  refine ⟨rfl, fun q => rfl, fun s hs => ?_⟩
  simp [get_position_qty, hs]

theorem C7_position_404_is_flat_witness :
    get_position_qty (.httpError 404) = .ok 0 ∧
    get_position_qty (.ok 7) = .ok 7 ∧
    get_position_qty (.httpError 500) = .error 500 :=
  ⟨C7_position_404_is_flat.1, C7_position_404_is_flat.2.1 7,
    C7_position_404_is_flat.2.2 500 (by decide)⟩

/-- C1 counterexample: in app.py, closing a SHORT position (broker-reported
quantity -5) during extended hours submits an order whose qty is the raw
value -5, not abs(-5) = 5, and whose side is "sell", not "buy" (the
opposite of a short position sign). The claim as stated is false for
app.py close_position. -/
theorem C1_counterexample :
    (close_position_app "SPY" 100 false (-5)).orderQty = some (-5) ∧
    (close_position_app "SPY" 100 false (-5)).orderSide = some "sell" ∧
    some (-5 : Int) ≠ some |(-5 : Int)| ∧ ("sell" : String) ≠ "buy" := by
  refine ⟨?_, ?_, by decide, by decide⟩ <;>
    norm_num [close_position_app, CloseAction.orderQty, CloseAction.orderSide]

/-- C1 amended: breakout_bot.py close_position does size the extended-hours
closing order to abs(position quantity) with side opposite the position
sign (sell closes a long, buy closes a short), and liquidates the full
position via DELETE when the market is open; app.py satisfies the claim
only for long (positive) positions, where its hardcoded sell of the raw
quantity coincides with abs and the opposite side. Neither ever uses a
quantity hint from the alert (no such field is read). -/
theorem C1_amended (symbol : String) (p : ℚ) (q : Int) (hq : q ≠ 0) :
    (close_position_breakout symbol p false q).orderQty = some |q| ∧
    (close_position_breakout symbol p false q).orderSide =
      some (if q > 0 then "sell" else "buy") ∧
    close_position_breakout symbol p true q = .deletePosition symbol ∧
    (∀ q2 : Int, 0 < q2 →
      (close_position_app symbol p false q2).orderQty = some |q2| ∧
      (close_position_app symbol p false q2).orderSide = some "sell") := by
  refine ⟨?_, ?_, ?_, fun q2 h2 => ⟨?_, ?_⟩⟩
  · simp [close_position_breakout, hq, CloseAction.orderQty]
  · simp [close_position_breakout, hq, CloseAction.orderSide]
  · simp [close_position_breakout, hq]
  · have h0 : q2 ≠ 0 := by omega
    simp [close_position_app, h0, CloseAction.orderQty, abs_of_pos h2]
  · have h0 : q2 ≠ 0 := by omega
    simp [close_position_app, h0, CloseAction.orderSide]

theorem C1_amended_witness :
    (close_position_breakout "SPY" 100 false (-3)).orderQty = some |(-3 : Int)| ∧
    (close_position_breakout "SPY" 100 false (-3)).orderSide =
      some (if (-3 : Int) > 0 then "sell" else "buy") ∧
    close_position_breakout "SPY" 100 true (-3) = .deletePosition "SPY" ∧
    (close_position_app "SPY" 100 false 7).orderQty = some |(7 : Int)| ∧
    (close_position_app "SPY" 100 false 7).orderSide = some "sell" := by
  obtain ⟨h1, h2, h3, h4⟩ := C1_amended "SPY" 100 (-3) (by decide)
  exact ⟨h1, h2, h3, (h4 7 (by decide)).1, (h4 7 (by decide)).2⟩

/-- C2 counterexample: in app.py with a short-biased strategy, an entry
signal (action sell) for a symbol with a non-zero (short, -10) position is
NOT suppressed: the handler places a fresh entry order, stacking the short.
The entry gate checks qty > 0, not qty != 0. -/
theorem C2_counterexample :
    appWebhook "short" "TSLA" "sell" 100 true (-10) 100000 =
      .entryOrder ⟨"TSLA", 100, "sell", "market", none, "day", false⟩ ∧
    (-10 : Int) ≠ 0 := by
  have hq : ⌊(100000 : ℚ) * (1 / 10) / 100⌋ = 100 := by
    rw [Int.floor_eq_iff]; norm_num
  refine ⟨?_, by decide⟩
  norm_num [appWebhook, hq]
  simp

/-- C2 amended: the entry is suppressed with the position-already-exists
message when the broker-reported quantity is strictly positive (app.py and
app_live.py test qty greater than 0, so a short position does not suppress
a new entry); breakout_bot.py suppresses an entry signal whenever a
same-direction position exists (buy with a long position, sell with a
short position), treating opposite-direction signals as exits instead. -/
theorem C2_amended (st symbol : String) (p bp eqy abp : ℚ) (mo sub : Bool) (q : Int)
    (wd mins : Nat) (pos : List String) (d : Int) (log : TradesLog)
    (hs : symbol ≠ "") (hq : 0 < q) (hp : 0 < p)
    (hw : is_within_trading_hours_breakout wd mins = true)
    (hwl : is_within_trading_hours_live wd mins = true) :
    appWebhook st symbol (if st = "long" then "buy" else "sell") p mo q bp =
      .positionExists ∧
    appLiveWebhook st symbol (if st = "long" then "buy" else "sell") p wd mins mo q bp pos =
      .positionExists ∧
    (breakoutWebhook ⟨symbol, "buy", p, wd, mins, mo, q, eqy, abp, pos, sub, d⟩ log).1 =
      .alreadyLong ∧
    (breakoutWebhook ⟨symbol, "sell", p, wd, mins, mo, -q, eqy, abp, pos, sub, d⟩ log).1 =
      .alreadyShort := by
  have hnc := is_near_market_close_false wd mins
  have hq0 : ¬(q < 0) := by omega
  have hqn : q ≠ 0 := by omega
  have hnq0 : ¬(-q > 0) := by omega
  have hnqn : -q ≠ 0 := by omega
  refine ⟨?_, ?_, ?_, ?_⟩
  · by_cases hst : st = "long" <;>
      simp [appWebhook, hst, hs, hq]
  · by_cases hst : st = "long" <;>
      simp [appLiveWebhook, hst, hs, hq, hnc, hwl, ENABLE_TRADING, ENFORCE_MARKET_HOURS]
  · simp [breakoutWebhook, hs, hnc, hw, hq, hq0, hqn, ENABLE_TRADING, ENFORCE_MARKET_HOURS,
      not_le.mpr hp]
  · simp [breakoutWebhook, hs, hnc, hw, hnq0, hnqn, ENABLE_TRADING, ENFORCE_MARKET_HOURS,
      not_le.mpr hp]

theorem C2_amended_witness :
    appWebhook "long" "TSLA" "buy" 100 true 4 100000 = .positionExists ∧
    appLiveWebhook "long" "TSLA" "buy" 100 1 600 true 4 100000 [] = .positionExists ∧
    (breakoutWebhook ⟨"TSLA", "buy", 100, 1, 600, true, 4, 100000, 50000, [], true, 20000⟩
      []).1 = .alreadyLong ∧
    (breakoutWebhook ⟨"TSLA", "sell", 100, 1, 600, true, -4, 100000, 50000, [], true, 20000⟩
      []).1 = .alreadyShort := by
  have h := C2_amended "long" "TSLA" 100 100000 100000 50000 true true 4 1 600 [] 20000 []
    (by decide) (by decide) (by norm_num) (by decide) (by decide)
  simpa using h

/-- C3 counterexample: an entry processed while the market is closed in
app.py with a short-biased strategy submits a SELL limit order at the alert
price PLUS the 0.1 percent buffer (limit 100.1 for alert price 100), not the
alert price minus the buffer (99.9) that the claim requires for sell
orders: the buffer is added regardless of side. -/
theorem C3_counterexample :
    appWebhook "short" "NVDA" "sell" 100 false 0 100000 =
      .entryOrder ⟨"NVDA", 100, "sell", "limit", some (1001 / 10), "day", true⟩ ∧
    (1001 / 10 : ℚ) ≠ round2 (100 - 100 * (1 / 1000)) := by
  have hq : ⌊(100000 : ℚ) * (1 / 10) / 100⌋ = 100 := by
    rw [Int.floor_eq_iff]; norm_num
  have hr : round2 (1001 / 10 : ℚ) = 1001 / 10 := by
    unfold round2
    rw [show ⌊((1001 / 10 : ℚ) * 100 + 1 / 2)⌋ = 10010 by rw [Int.floor_eq_iff]; norm_num]
    norm_num
  have hr2 : round2 (100 - 100 * (1 / 1000) : ℚ) = 999 / 10 := by
    unfold round2
    rw [show ((100 - 100 * (1 / 1000) : ℚ)) * 100 + 1 / 2 = 9990 + 1 / 2 by norm_num]
    rw [show ⌊(9990 + 1 / 2 : ℚ)⌋ = 9990 by rw [Int.floor_eq_iff]; norm_num]
    norm_num
  constructor
  · norm_num [appWebhook, hq, hr]
    simp
  · rw [hr2]; norm_num

/-- C3 amended: every entry processed while the market is closed submits a
limit order with the extended-hours flag set; in app.py the limit price is
the alert price plus a fixed 0.1 percent buffer regardless of side (added
for sells as well as buys), and in app_live.py the limit price is the alert
price unchanged (no buffer in either direction). -/
theorem C3_amended (st symbol : String) (p bp : ℚ) (wd mins : Nat) (pos : List String)
    (hs : symbol ≠ "") (hp : 0 < p) (hq : 1 ≤ ⌊bp * (1 / 10) / p⌋)
    (hwl : is_within_trading_hours_live wd mins = true) :
    appWebhook st symbol (if st = "long" then "buy" else "sell") p false 0 bp =
      .entryOrder ⟨symbol, ⌊bp * (1 / 10) / p⌋, if st = "long" then "buy" else "sell",
        "limit", some (round2 (p + p * (1 / 1000))), "day", true⟩ ∧
    appLiveWebhook st symbol (if st = "long" then "buy" else "sell") p wd mins false 0 bp pos =
      .entryOrder ⟨symbol, ⌊bp * (1 / 10) / p⌋, if st = "long" then "buy" else "sell",
        "limit", some (round2 p), "day", true⟩ := by
  have hnc := is_near_market_close_false wd mins
  have hq1 : ¬(⌊bp * (1 / 10) / p⌋ < 1) := by omega
  have hq2 : (1 : ℤ) ≤ ⌊bp * (10 : ℚ)⁻¹ / p⌋ := by rwa [← one_div]
  constructor
  · by_cases hst : st = "long" <;>
      simp [appWebhook, hst, hs, hq1, hq2, not_le.mpr hp]
  · by_cases hst : st = "long" <;>
      simp [appLiveWebhook, hst, hs, hq1, hq2, not_le.mpr hp, hnc, hwl, ENABLE_TRADING,
        ENFORCE_MARKET_HOURS]

theorem C3_amended_witness :
    appWebhook "long" "MSFT" "buy" 300 false 0 50000 =
      .entryOrder ⟨"MSFT", ⌊(50000 : ℚ) * (1 / 10) / 300⌋, "buy",
        "limit", some (round2 (300 + 300 * (1 / 1000))), "day", true⟩ ∧
    appLiveWebhook "long" "MSFT" "buy" 300 1 600 false 0 50000 [] =
      .entryOrder ⟨"MSFT", ⌊(50000 : ℚ) * (1 / 10) / 300⌋, "buy",
        "limit", some (round2 300), "day", true⟩ := by
  have hq : (1 : ℤ) ≤ ⌊(50000 : ℚ) * (1 / 10) / 300⌋ := by
    rw [show ⌊(50000 : ℚ) * (1 / 10) / 300⌋ = 16 by rw [Int.floor_eq_iff]; norm_num]
    norm_num
  have h := C3_amended "long" "MSFT" 300 50000 1 600 [] (by decide) (by norm_num) hq (by decide)
  simpa using h

/-- C5: entries sized under the 10-percent-of-buying-power policy get
quantity floor(buyingPower * 0.10 / referencePrice); with buyingPower 10000
and price 100 the quantity is 10, with buyingPower 5000 and price 300 it is
1; when the computed quantity is below 1 the entry is suppressed with the
insufficient-funds message and no order is submitted. -/
theorem C5_percent_sizing (symbol : String) (bp p : ℚ) (hs : symbol ≠ "") (hp : 0 < p) :
    (1 ≤ ⌊bp * (1 / 10) / p⌋ →
      appWebhook "long" symbol "buy" p true 0 bp =
        .entryOrder ⟨symbol, ⌊bp * (1 / 10) / p⌋, "buy", "market", none, "day", false⟩) ∧
    (⌊bp * (1 / 10) / p⌋ < 1 →
      appWebhook "long" symbol "buy" p true 0 bp = .insufficientFunds) ∧
    appWebhook "long" "AAPL" "buy" 100 true 0 10000 =
      .entryOrder ⟨"AAPL", 10, "buy", "market", none, "day", false⟩ ∧
    appWebhook "long" "AAPL" "buy" 300 true 0 5000 =
      .entryOrder ⟨"AAPL", 1, "buy", "market", none, "day", false⟩ ∧
    appWebhook "long" "AAPL" "buy" 300 true 0 2000 = .insufficientFunds := by
  refine ⟨fun hq => ?_, fun hq => ?_, ?_, ?_, ?_⟩
  · have hq1 : ¬(⌊bp * (1 / 10) / p⌋ < 1) := by omega
    have hq2 : (1 : ℤ) ≤ ⌊bp * (10 : ℚ)⁻¹ / p⌋ := by rwa [← one_div]
    simp [appWebhook, hs, hq1, hq2, not_le.mpr hp]
  · have hq2 : ⌊bp * (10 : ℚ)⁻¹ / p⌋ < 1 := by rwa [← one_div]
    simp [appWebhook, hs, hq, hq2, not_le.mpr hp]
  · have hq : ⌊(10000 : ℚ) * (1 / 10) / 100⌋ = 10 := by
      rw [Int.floor_eq_iff]; norm_num
    norm_num [appWebhook, hq]
    simp
  · have hq : ⌊(5000 : ℚ) * (1 / 10) / 300⌋ = 1 := by
      rw [Int.floor_eq_iff]; norm_num
    norm_num [appWebhook, hq]
    simp
  · have hq : ⌊(2000 : ℚ) * (1 / 10) / 300⌋ = 0 := by
      rw [Int.floor_eq_iff]; norm_num
    norm_num [appWebhook, hq]
    simp

theorem C5_percent_sizing_witness :
    appWebhook "long" "AAPL" "buy" 100 true 0 10000 =
      .entryOrder ⟨"AAPL", 10, "buy", "market", none, "day", false⟩ ∧
    appWebhook "long" "AAPL" "buy" 300 true 0 5000 =
      .entryOrder ⟨"AAPL", 1, "buy", "market", none, "day", false⟩ ∧
    appWebhook "long" "AAPL" "buy" 300 true 0 2000 = .insufficientFunds := by
  have h := C5_percent_sizing "AAPL" 10000 100 (by decide) (by norm_num)
  exact ⟨h.2.2.1, h.2.2.2.1, h.2.2.2.2⟩

/-- C4: marking a symbol traded on date D makes has_traded_today true on D
and false on every other date (starting from an empty log); an entry signal
for that symbol on date D is then suppressed with the daily-limit message,
while on date D+1 it resolves normally to a placed entry order. -/
theorem C4_daily_cap (s : String) (p eqy abp : ℚ) (wd mins : Nat) (mo : Bool) (D : Int)
    (pos : List String)
    (hs : s ≠ "") (hp : 0 < p)
    (hw : is_within_trading_hours_breakout wd mins = true)
    (hq : 1 ≤ ⌊min (eqy * (1 / 10)) abp / p⌋) :
    has_traded_today (mark_traded_today [] D s) D s = true ∧
    (∀ d2 : Int, d2 ≠ D → has_traded_today (mark_traded_today [] D s) d2 s = false) ∧
    (breakoutWebhook ⟨s, "buy", p, wd, mins, mo, 0, eqy, abp, pos, true, D⟩
        (mark_traded_today [] D s)).1 = .dailyLimit ∧
    (breakoutWebhook ⟨s, "buy", p, wd, mins, mo, 0, eqy, abp, pos, true, D + 1⟩
        (mark_traded_today [] D s)).1 =
      .entryPlaced
        (if mo then
          ⟨s, ⌊min (eqy * (1 / 10)) abp / p⌋, "buy", "market", none, "day", false⟩
        else
          ⟨s, ⌊min (eqy * (1 / 10)) abp / p⌋, "buy", "limit", some (round2 p), "day", true⟩) := by
  have hnc := is_near_market_close_false wd mins
  have hclean : cleanup_old_trades (mark_traded_today [] D s) D = mark_traded_today [] D s := by
    simp [cleanup_old_trades, mark_traded_today]
  have hclean1 : cleanup_old_trades (mark_traded_today [] D s) (D + 1) =
      mark_traded_today [] D s := by
    simp [cleanup_old_trades, mark_traded_today]
  have htr : has_traded_today (mark_traded_today [] D s) D s = true := by
    simp [has_traded_today, mark_traded_today]
  have htr1 : has_traded_today (mark_traded_today [] D s) (D + 1) s = false := by
    simp [has_traded_today, mark_traded_today]
  have hq1 : ¬(⌊min (eqy * (1 / 10)) abp / p⌋ < 1) := by omega
  have hq2 : (1 : ℤ) ≤ ⌊min (eqy * (10 : ℚ)⁻¹) abp / p⌋ := by rwa [← one_div]
  have hq3 : ¬(⌊(eqy * (10 : ℚ)⁻¹ ⊓ abp) / p⌋ < 1) := by
    rw [← one_div]; exact hq1
  refine ⟨htr, fun d2 hd2 => ?_, ?_, ?_⟩
  · simp [has_traded_today, mark_traded_today]
    intro h
    omega
  · simp [breakoutWebhook, hs, hnc, hw, not_le.mpr hp, ENABLE_TRADING, ENFORCE_MARKET_HOURS,
      hclean, htr]
  · simp [breakoutWebhook, hs, hnc, hw, not_le.mpr hp, ENABLE_TRADING, ENFORCE_MARKET_HOURS,
      hclean1, htr1, get_buying_power_breakout, hq1, hq2, hq3]

theorem C4_daily_cap_witness :
    has_traded_today (mark_traded_today [] 20000 "AAPL") 20000 "AAPL" = true ∧
    has_traded_today (mark_traded_today [] 20000 "AAPL") 20001 "AAPL" = false ∧
    (breakoutWebhook ⟨"AAPL", "buy", 100, 1, 600, true, 0, 100000, 50000, [], true, 20000⟩
        (mark_traded_today [] 20000 "AAPL")).1 = .dailyLimit ∧
    (breakoutWebhook ⟨"AAPL", "buy", 100, 1, 600, true, 0, 100000, 50000, [], true, 20001⟩
        (mark_traded_today [] 20000 "AAPL")).1 =
      .entryPlaced ⟨"AAPL", ⌊min ((100000 : ℚ) * (1 / 10)) 50000 / 100⌋, "buy", "market",
        none, "day", false⟩ := by
  have hq : (1 : ℤ) ≤ ⌊min ((100000 : ℚ) * (1 / 10)) 50000 / 100⌋ := by
    rw [show min ((100000 : ℚ) * (1 / 10)) 50000 = 10000 by norm_num]
    rw [show ⌊(10000 : ℚ) / 100⌋ = 100 by rw [Int.floor_eq_iff]; norm_num]
    norm_num
  have h := C4_daily_cap "AAPL" 100 100000 50000 1 600 true 20000 []
    (by decide) (by norm_num) (by decide) hq
  refine ⟨h.1, h.2.1 20001 (by decide), h.2.2.1, ?_⟩
  have h4 := h.2.2.2
  norm_num at h4 ⊢
  exact h4

/-- C10: the daily trade cap is consumed only on successful order
submission. If the entry POST raises an HTTP error the result is
entryFailed, the trades log on disk is just the cleanup of the input log
(no mark added), the symbol still reads as not traded today, and an
immediately retried entry the same day is not suppressed by the daily cap
and places the order. -/
theorem C10_cap_only_on_success (s : String) (p eqy abp : ℚ) (wd mins : Nat) (mo : Bool)
    (D : Int) (pos : List String) (log : TradesLog)
    (hs : s ≠ "") (hp : 0 < p)
    (hw : is_within_trading_hours_breakout wd mins = true)
    (hq : 1 ≤ ⌊min (eqy * (1 / 10)) abp / p⌋)
    (hnt : has_traded_today log D s = false) :
    (breakoutWebhook ⟨s, "buy", p, wd, mins, mo, 0, eqy, abp, pos, false, D⟩ log).1 =
      .entryFailed
        (if mo then
          ⟨s, ⌊min (eqy * (1 / 10)) abp / p⌋, "buy", "market", none, "day", false⟩
        else
          ⟨s, ⌊min (eqy * (1 / 10)) abp / p⌋, "buy", "limit", some (round2 p), "day", true⟩) ∧
    (breakoutWebhook ⟨s, "buy", p, wd, mins, mo, 0, eqy, abp, pos, false, D⟩ log).2 =
      cleanup_old_trades log D ∧
    has_traded_today
      (breakoutWebhook ⟨s, "buy", p, wd, mins, mo, 0, eqy, abp, pos, false, D⟩ log).2 D s
      = false ∧
    (breakoutWebhook ⟨s, "buy", p, wd, mins, mo, 0, eqy, abp, pos, true, D⟩
        (breakoutWebhook ⟨s, "buy", p, wd, mins, mo, 0, eqy, abp, pos, false, D⟩ log).2).1 =
      .entryPlaced
        (if mo then
          ⟨s, ⌊min (eqy * (1 / 10)) abp / p⌋, "buy", "market", none, "day", false⟩
        else
          ⟨s, ⌊min (eqy * (1 / 10)) abp / p⌋, "buy", "limit", some (round2 p), "day", true⟩) := by
  have hnc := is_near_market_close_false wd mins
  have hnt1 : has_traded_today (cleanup_old_trades log D) D s = false := by
    rw [has_traded_cleanup]; exact hnt
  have hclean2 : cleanup_old_trades (cleanup_old_trades log D) D = cleanup_old_trades log D := by
    simp [cleanup_old_trades, List.filter_filter]
  have hq1 : ¬(⌊min (eqy * (1 / 10)) abp / p⌋ < 1) := by omega
  have hq2 : (1 : ℤ) ≤ ⌊min (eqy * (10 : ℚ)⁻¹) abp / p⌋ := by rwa [← one_div]
  have hq3 : ¬(⌊(eqy * (10 : ℚ)⁻¹ ⊓ abp) / p⌋ < 1) := by
    rw [← one_div]; exact hq1
  have hbase : (breakoutWebhook ⟨s, "buy", p, wd, mins, mo, 0, eqy, abp, pos, false, D⟩ log) =
      (.entryFailed
        (if mo then
          ⟨s, ⌊min (eqy * (1 / 10)) abp / p⌋, "buy", "market", none, "day", false⟩
        else
          ⟨s, ⌊min (eqy * (1 / 10)) abp / p⌋, "buy", "limit", some (round2 p), "day", true⟩),
        cleanup_old_trades log D) := by
    simp [breakoutWebhook, hs, hnc, hw, not_le.mpr hp, ENABLE_TRADING, ENFORCE_MARKET_HOURS,
      hnt1, get_buying_power_breakout, hq1, hq2, hq3]
  refine ⟨by rw [hbase], by rw [hbase], by rw [hbase]; exact hnt1, ?_⟩
  rw [hbase]
  simp [breakoutWebhook, hs, hnc, hw, not_le.mpr hp, ENABLE_TRADING, ENFORCE_MARKET_HOURS,
    hclean2, hnt1, get_buying_power_breakout, hq1, hq2, hq3]

theorem C10_cap_only_on_success_witness :
    (breakoutWebhook ⟨"AAPL", "buy", 100, 1, 600, true, 0, 100000, 50000, [], false, 20000⟩
        []).1 =
      .entryFailed ⟨"AAPL", ⌊min ((100000 : ℚ) * (1 / 10)) 50000 / 100⌋, "buy", "market",
        none, "day", false⟩ ∧
    (breakoutWebhook ⟨"AAPL", "buy", 100, 1, 600, true, 0, 100000, 50000, [], false, 20000⟩
        []).2 = cleanup_old_trades [] 20000 ∧
    has_traded_today
      (breakoutWebhook ⟨"AAPL", "buy", 100, 1, 600, true, 0, 100000, 50000, [], false, 20000⟩
        []).2 20000 "AAPL" = false ∧
    (breakoutWebhook ⟨"AAPL", "buy", 100, 1, 600, true, 0, 100000, 50000, [], true, 20000⟩
        (breakoutWebhook ⟨"AAPL", "buy", 100, 1, 600, true, 0, 100000, 50000, [], false, 20000⟩
          []).2).1 =
      .entryPlaced ⟨"AAPL", ⌊min ((100000 : ℚ) * (1 / 10)) 50000 / 100⌋, "buy", "market",
        none, "day", false⟩ := by
  have hq : (1 : ℤ) ≤ ⌊min ((100000 : ℚ) * (1 / 10)) 50000 / 100⌋ := by
    rw [show min ((100000 : ℚ) * (1 / 10)) 50000 = 10000 by norm_num]
    rw [show ⌊(10000 : ℚ) / 100⌋ = 100 by rw [Int.floor_eq_iff]; norm_num]
    norm_num
  have h := C10_cap_only_on_success "AAPL" 100 100000 50000 1 600 true 20000 [] []
    (by decide) (by norm_num) (by decide) hq (by decide)
  refine ⟨?_, h.2.1, h.2.2.1, ?_⟩
  · have h1 := h.1
    norm_num at h1 ⊢
    exact h1
  · have h4 := h.2.2.2
    norm_num at h4 ⊢
    exact h4

/-- C8: the auto-flatten-before-close check can never fire. With the
shipped AUTO_CLOSE_BEFORE_MINUTES = 5 the code computes close_buffer_time
as time(16, 55), so the test 16:55 <= now < 16:00 is unsatisfiable and
is_near_market_close returns false for every weekday and time of day
(first conjunct). Consequently a valid entry signal arriving at 15:57 ET
on a Monday with open positions is resolved as a normal entry in both
breakout_bot.py and app_live.py instead of flattening all positions
(second and third conjuncts), contradicting the claim and the source
comment that names 3:55 PM as the buffer start for a 5-minute buffer. -/
theorem C8_auto_flatten_never_fires :
    (∀ weekday minutes : Nat, is_near_market_close weekday minutes = false) ∧
    (breakoutWebhook ⟨"AAPL", "buy", 100, 0, 957, true, 0, 100000, 50000,
        ["MSFT", "AAPL"], true, 20000⟩ []).1 =
      .entryPlaced ⟨"AAPL", 100, "buy", "market", none, "day", false⟩ ∧
    appLiveWebhook "long" "AAPL" "buy" 100 0 957 true 0 100000 ["MSFT"] =
      .entryOrder ⟨"AAPL", 100, "buy", "market", none, "day", false⟩ := by
  refine ⟨is_near_market_close_false, ?_, ?_⟩
  · have hq : ⌊min ((100000 : ℚ) * (1 / 10)) 50000 / 100⌋ = 100 := by
      rw [show min ((100000 : ℚ) * (1 / 10)) 50000 = 10000 by norm_num]
      rw [Int.floor_eq_iff]; norm_num
    norm_num [breakoutWebhook, get_buying_power_breakout, is_near_market_close_false,
      is_within_trading_hours_breakout, ENFORCE_MARKET_HOURS, ENABLE_TRADING,
      cleanup_old_trades, has_traded_today, hq]
    simp
  · have hq : ⌊(100000 : ℚ) * (1 / 10) / 100⌋ = 100 := by
      rw [Int.floor_eq_iff]; norm_num
    norm_num [appLiveWebhook, is_near_market_close_false, is_within_trading_hours_live,
      ENFORCE_MARKET_HOURS, ENABLE_TRADING, hq]
    simp

/-- C6: for an armed bracket with take-profit leg t1 and stop-loss leg s1,
a fill event on either leg cancels the sibling and removes the record; a
subsequent event for the other leg then hits an empty book and is a no-op;
a cancel, reject or expire event on a tracked leg removes the record
without cancelling the sibling; and events for order ids not tracked in
any bracket leave the book unchanged and cancel nothing. -/
theorem C6_bracket_oco (parent t1 s1 : String) (hne : t1 ≠ s1) :
    on_trade_update [(parent, ⟨some t1, some s1⟩)] "fill" t1 = ([], [s1]) ∧
    on_trade_update [(parent, ⟨some t1, some s1⟩)] "fill" s1 = ([], [t1]) ∧
    on_trade_update ([] : OcoBook) "fill" s1 = ([], []) ∧
    on_trade_update [(parent, ⟨some t1, some s1⟩)] "canceled" t1 = ([], []) ∧
    on_trade_update [(parent, ⟨some t1, some s1⟩)] "rejected" s1 = ([], []) ∧
    on_trade_update [(parent, ⟨some t1, some s1⟩)] "expired" t1 = ([], []) ∧
    (∀ (book : OcoBook) (ev oid : String),
      (∀ e ∈ book, e.2.tp_id ≠ some oid ∧ e.2.sl_id ≠ some oid) →
      on_trade_update book ev oid = (book, [])) := by
  have hne2 : s1 ≠ t1 := fun h => hne h.symm
  refine ⟨?_, ?_, rfl, ?_, ?_, ?_, ?_⟩
  · simp [on_trade_update, entryStep, legStep, terminalEvents, hne2]
  · simp [on_trade_update, entryStep, legStep, terminalEvents, hne]
  · simp [on_trade_update, entryStep, legStep, terminalEvents, hne2]
  · simp [on_trade_update, entryStep, legStep, terminalEvents, hne]
  · simp [on_trade_update, entryStep, legStep, terminalEvents, hne2]
  · intro book ev oid hbook
    induction book with
    | nil => rfl
    | cons e rest ih =>
      have he := hbook e (by simp)
      have hrest : ∀ e2 ∈ rest, e2.2.tp_id ≠ some oid ∧ e2.2.sl_id ≠ some oid :=
        fun e2 h2 => hbook e2 (by simp [h2])
      have htail := ih hrest
      simp [on_trade_update, entryStep, legStep, he.1, he.2, htail]

theorem C6_bracket_oco_witness :
    on_trade_update [("p1", ⟨some "T1", some "S1"⟩)] "fill" "T1" = ([], ["S1"]) ∧
    on_trade_update [("p1", ⟨some "T1", some "S1"⟩)] "fill" "S1" = ([], ["T1"]) ∧
    on_trade_update ([] : OcoBook) "fill" "S1" = ([], []) ∧
    on_trade_update [("p1", ⟨some "T1", some "S1"⟩)] "canceled" "T1" = ([], []) ∧
    on_trade_update [("p1", ⟨some "T1", some "S1"⟩)] "rejected" "S1" = ([], []) ∧
    on_trade_update [("p1", ⟨some "T1", some "S1"⟩)] "expired" "T1" = ([], []) ∧
    on_trade_update [("p1", ⟨some "T1", some "S1"⟩)] "fill" "ZZ" =
      ([("p1", ⟨some "T1", some "S1"⟩)], []) := by
  have h := C6_bracket_oco "p1" "T1" "S1" (by decide)
  exact ⟨h.1, h.2.1, h.2.2.1, h.2.2.2.1, h.2.2.2.2.1, h.2.2.2.2.2.1,
    h.2.2.2.2.2.2 [("p1", ⟨some "T1", some "S1"⟩)] "fill" "ZZ" (by decide)⟩

end AlpacaBot
